import Mathlib

/- Verification of the spectrum-scanning engine in src/App/app/spectrum.c.

   Shallow embedding conventions:
   * machine integers are modelled as Nat (unsigned) or Int (signed C int),
     with explicit wrapping (% 2^w) written out where overflow actually matters;
   * the 128-entry uint16 array rssiHistory is a function Nat -> Nat whose
     meaningful indices are 0..127 (out-of-range indices model out-of-bounds
     array accesses of the C code);
   * compile-time configuration: ENABLE_SCAN_RANGES and
     ENABLE_FEAT_F4HWN_SPECTRUM are taken as enabled (the claims reference the
     extended-range folding code and the F4HWN listen timer);
     SPECTRUM_AUTOMATIC_SQUELCH is taken as disabled;
   * hardware register writes, drawing primitives and delays are external
     collaborators and are elided; only their effect on the module state
     (fMeasure, isListening, listenT, flags) is kept. -/

namespace Spectrum

/-- const uint16_t RSSI_MAX_VALUE = 65535 (spectrum.c line 48). -/
def RSSI_MAX_VALUE : ℕ := 65535

/-- static int clamp(int v, int min, int max), spectrum.c lines 258-261:
    v <= min ? min : (v >= max ? max : v), on C ints. -/
def clamp (v mn mx : ℤ) : ℤ :=
  if v ≤ mn then mn else if v ≥ mx then mx else v

/-- enum State from the header (SPECTRUM, FREQ_INPUT, STILL); the header is not
    under src/, but the three states are fixed by their uses in spectrum.c. -/
inductive CState
  | SPECTRUM
  | FREQ_INPUT
  | STILL
  deriving DecidableEq, Repr

/-- ScanInfo struct (declared in the header; fields are fixed by their uses in
    spectrum.c: rssi, rssiMin, rssiMax, iPeak, fPeak, i, f, scanStep,
    measurementsCount). All fields are unsigned machine integers. -/
structure ScanInfo where
  rssi : ℕ
  rssiMin : ℕ
  rssiMax : ℕ
  iPeak : ℕ
  fPeak : ℕ
  i : ℕ
  f : ℕ
  scanStep : ℕ
  measurementsCount : ℕ
  deriving Repr

/-- PeakInfo struct (declared in the header; fields fixed by uses in
    spectrum.c: age counter t, rssi, frequency f, bin index i). -/
structure PeakInfo where
  t : ℕ
  rssi : ℕ
  f : ℕ
  i : ℕ
  deriving DecidableEq, Repr

/-- The waterfall state: waterfall_rows (16 rows of 128 1-bit pixels; the C
    packs each row into 16 bytes, we model a row as its column-indexed bit
    function), waterfall_phase (uint8, kept in 0..3 by the AND 3 on advance)
    and waterfall_scan_count (uint16; statistics only). -/
structure WaterfallSt where
  rows : ℕ → ℕ → Bool
  phase : ℕ
  scanCount : ℕ

/-- SpectrumSettings (spectrum.c lines 78-88 give the initial value; the
    struct itself is in the header). stepsCount holds the StepsCount enum
    value: the formula 128 >> stepsCount of GetStepsCount together with the
    enum names fixes STEPS_128 = 0, STEPS_64 = 1, STEPS_32 = 2, STEPS_16 = 3.
    dbMin/dbMax are C ints holding dBm values. Fields of the struct that no
    embedded function reads or writes (scanDelay, backlightState, bw,
    modulationType) are carried verbatim as plain data. -/
structure SpectrumSettings where
  stepsCount : ℕ
  scanStepIndex : ℕ
  frequencyChangeStep : ℕ
  scanDelay : ℕ
  rssiTriggerLevel : ℕ
  backlightState : Bool
  bw : ℕ
  listenBw : ℕ
  modulationType : ℕ
  dbMin : ℤ
  dbMax : ℤ
  deriving Repr

/-- The module-level mutable state of spectrum.c that the embedded
    operations read or write. -/
structure St where
  settings : SpectrumSettings
  currentFreq : ℕ
  tempFreq : ℕ
  gScanRangeStart : ℕ
  gScanRangeStop : ℕ
  rssiHistory : ℕ → ℕ
  blacklistFreqs : ℕ → ℕ
  blacklistFreqsIdx : ℕ
  scanInfo : ScanInfo
  peak : PeakInfo
  isListening : Bool
  currentState : CState
  previousState : CState
  newScanStart : Bool
  preventKeypress : Bool
  redrawScreen : Bool
  redrawStatus : Bool
  fMeasure : ℕ
  listenT : ℕ
  waterfall : WaterfallSt
  spectrumPeaks : ℕ → ℕ
  spectrumPeakAge : ℕ → ℕ

/-- Modelled from the spec: external data that spectrum.c reads from headers
    and driver tables that are not under src/ --
    scanStepValues (the per-index scan step table, spec section 3: step size
    at least 1 unit of 10 Hz resolution), the S_STEP_2_5kHz enum value used
    by IsCenterMode (spec section 4.1: centered mode is used for small step
    sizes), dBmCorrTable[gRxVfo->Band] (the per-band calibration offset, spec
    section 4.5), and the band limits F_MIN / F_MAX from frequencyBandTable
    (spec sections 4.4 and 7: the supported band range). -/
structure Cfg where
  scanStepValues : ℕ → ℕ
  centerThreshold : ℕ
  corr : ℤ
  fMin : ℕ
  fMax : ℕ

/-- uint16_t GetScanStep() (line 379): scanStepValues[settings.scanStepIndex]. -/
def GetScanStep (cfg : Cfg) (s : St) : ℕ :=
  cfg.scanStepValues s.settings.scanStepIndex

/-- bool IsCenterMode() (line 377): settings.scanStepIndex < S_STEP_2_5kHz. -/
def IsCenterMode (cfg : Cfg) (s : St) : Bool :=
  decide (s.settings.scanStepIndex < cfg.centerThreshold)

/-- uint16_t GetStepsCount() (lines 381-392): with ENABLE_SCAN_RANGES, a
    nonzero gScanRangeStart gives (range / step) + 1, otherwise
    128 >> settings.stepsCount. (The uint32 subtraction is modelled on Nat;
    a configured range has start <= stop.) -/
def GetStepsCount (cfg : Cfg) (s : St) : ℕ :=
  if s.gScanRangeStart ≠ 0 then
    (s.gScanRangeStop - s.gScanRangeStart) / GetScanStep cfg s + 1
  else
    128 >>> s.settings.stepsCount

/-- uint32_t GetBW() (line 405): GetStepsCount() * GetScanStep(). -/
def GetBW (cfg : Cfg) (s : St) : ℕ :=
  GetStepsCount cfg s * GetScanStep cfg s

/-- uint32_t GetFStart() (lines 406-409): centered mode subtracts half the
    bandwidth from currentFreq (uint32; Nat subtraction here, the theorems
    that use the centered branch assume currentFreq >= BW/2, which holds for
    every real band frequency). -/
def GetFStart (cfg : Cfg) (s : St) : ℕ :=
  if IsCenterMode cfg s then s.currentFreq - GetBW cfg s >>> 1 else s.currentFreq

/-- uint32_t GetFEnd() (lines 411-420): the configured stop frequency in
    extended-range mode, otherwise currentFreq + GetBW(). -/
def GetFEnd (cfg : Cfg) (s : St) : ℕ :=
  if s.gScanRangeStart ≠ 0 then s.gScanRangeStop else s.currentFreq + GetBW cfg s

/-- int Rssi2DBm(uint16_t) (lines 192-195): (rssi / 2) - 160 + dBmCorrTable[band]. -/
def Rssi2DBm (cfg : Cfg) (rssi : ℕ) : ℤ :=
  ((rssi / 2 : ℕ) : ℤ) - 160 + cfg.corr

/-- void SetState(State) (lines 265-271). -/
def SetState (st : CState) (s : St) : St :=
  { s with previousState := s.currentState, currentState := st,
           redrawScreen := true, redrawStatus := true }

/-- static void ResetPeak() (lines 341-345): clears peak.t and peak.rssi only. -/
def ResetPeak (s : St) : St :=
  { s with peak := { s.peak with t := 0, rssi := 0 } }

/-- static void ResetScanStats() (lines 510-526): clears the running pass
    statistics, fills spectrum_peaks with 0xFFFF (= RSSI_MAX_VALUE), zeroes
    spectrum_peak_age, zeroes all waterfall rows and resets waterfall_phase
    and waterfall_scan_count to 0. -/
def ResetScanStats (s : St) : St :=
  { s with
    scanInfo := { s.scanInfo with rssi := 0, rssiMax := 0, iPeak := 0, fPeak := 0 },
    spectrumPeaks := fun _ => RSSI_MAX_VALUE,
    spectrumPeakAge := fun _ => 0,
    waterfall := { rows := fun _ _ => false, phase := 0, scanCount := 0 } }

/-- static void InitScan() (lines 528-536): ResetScanStats, then bin index 0,
    start frequency, scan step and measurement count from the settings. -/
def InitScan (cfg : Cfg) (s : St) : St :=
  let s := ResetScanStats s
  { s with scanInfo := { s.scanInfo with
      i := 0,
      f := GetFStart cfg s,
      scanStep := GetScanStep cfg s,
      measurementsCount := GetStepsCount cfg s } }

/-- static void ResetBlacklist() (lines 538-549): every history slot (indices
    0..127) holding the sentinel is zeroed; with ENABLE_SCAN_RANGES the
    blacklistFreqs array and its index are cleared. -/
def ResetBlacklist (s : St) : St :=
  { s with
    rssiHistory := fun j =>
      if j < 128 ∧ s.rssiHistory j = RSSI_MAX_VALUE then 0 else s.rssiHistory j,
    blacklistFreqs := fun _ => 0,
    blacklistFreqsIdx := 0 }

/-- static void ToggleRX(bool) (lines 475-506), F4HWN variant: no-op when the
    listening flag already has the requested value; otherwise it records the
    flag and, when turning on, arms listenT = 100.  The register writes and
    audio-path calls are external. -/
def ToggleRX (flag : Bool) (s : St) : St :=
  if s.isListening = flag then s
  else { s with isListening := flag, listenT := if flag then 100 else s.listenT }

/-- static void RelaunchScan() (lines 551-561) with SPECTRUM_AUTOMATIC_SQUELCH
    disabled: InitScan, ResetPeak, ToggleRX(false), preventKeypress = true and
    scanInfo.rssiMin = RSSI_MAX_VALUE. -/
def RelaunchScan (cfg : Cfg) (s : St) : St :=
  let s := InitScan cfg s
  let s := ResetPeak s
  let s := ToggleRX false s
  { s with preventKeypress := true,
           scanInfo := { s.scanInfo with rssiMin := RSSI_MAX_VALUE } }

/-- static void UpdateScanInfo() (lines 563-578): a sample above the running
    max records the new max and its bin/frequency; a sample below the running
    min updates the min, recomputes settings.dbMin from it and flags a status
    redraw. -/
def UpdateScanInfo (cfg : Cfg) (s : St) : St :=
  let s :=
    if s.scanInfo.rssi > s.scanInfo.rssiMax then
      { s with scanInfo := { s.scanInfo with
          rssiMax := s.scanInfo.rssi,
          fPeak := s.scanInfo.f,
          iPeak := s.scanInfo.i } }
    else s
  if s.scanInfo.rssi < s.scanInfo.rssiMin then
    { s with
      scanInfo := { s.scanInfo with rssiMin := s.scanInfo.rssi },
      settings := { s.settings with dbMin := Rssi2DBm cfg s.scanInfo.rssi },
      redrawStatus := true }
  else s

/-- static void AutoTriggerLevel() (lines 580-586): only when the trigger
    level sits at the RSSI_MAX_VALUE sentinel, set it to
    clamp(scanInfo.rssiMax + 8, 0, RSSI_MAX_VALUE). -/
def AutoTriggerLevel (s : St) : St :=
  if s.settings.rssiTriggerLevel = RSSI_MAX_VALUE then
    { s with settings := { s.settings with rssiTriggerLevel :=
        (clamp ((s.scanInfo.rssiMax : ℤ) + 8) 0 (RSSI_MAX_VALUE : ℕ)).toNat } }
  else s

/-- static void UpdatePeakInfoForce() (lines 588-595): overwrite the long
    lived peak with the pass running max and reset its age, then run
    AutoTriggerLevel. -/
def UpdatePeakInfoForce (s : St) : St :=
  AutoTriggerLevel
    { s with peak := { t := 0, rssi := s.scanInfo.rssiMax,
                       f := s.scanInfo.fPeak, i := s.scanInfo.iPeak } }

/-- static void UpdatePeakInfo() (lines 597-601): force-refresh only when the
    peak is unset (f == 0), its age reached 1024, or the pass max exceeds it. -/
def UpdatePeakInfo (s : St) : St :=
  if s.peak.f = 0 ∨ s.peak.t ≥ 1024 ∨ s.peak.rssi < s.scanInfo.rssiMax then
    UpdatePeakInfoForce s
  else s

/-- static void SetRssiHistory(uint16_t idx, uint16_t rssi) (lines 603-616).
    With measurementsCount > 128 (ENABLE_SCAN_RANGES folding) the display slot
    is uint8_t i = (uint32_t)128 * 1000 / measurementsCount * idx / 1000 (the
    cascade of integer divisions evaluated left to right, then truncated to
    uint8 -- the value never exceeds 128 so the truncation never wraps); the
    slot is overwritten only when it holds a smaller value or the engine is
    listening, and slot (i + 1) % 128 is zeroed afterwards.  Otherwise the
    plain write rssiHistory[idx] = rssi. -/
def SetRssiHistory (idx rssi : ℕ) (s : St) : St :=
  if s.scanInfo.measurementsCount > 128 then
    let i := (128 * 1000 / s.scanInfo.measurementsCount * idx / 1000) % 256
    let hist1 : ℕ → ℕ :=
      if s.rssiHistory i < rssi ∨ s.isListening = true then
        fun j => if j = i then rssi else s.rssiHistory j
      else s.rssiHistory
    { s with rssiHistory := fun j => if j = (i + 1) % 128 then 0 else hist1 j }
  else
    { s with rssiHistory := fun j => if j = idx then rssi else s.rssiHistory j }

/-- static void Measure() (lines 618-622), with the sampled strength `r`
    supplied as an input (GetRssi() reads the hardware): records it in
    scanInfo.rssi and stores it through SetRssiHistory at the current bin. -/
def Measure (r : ℕ) (s : St) : St :=
  SetRssiHistory s.scanInfo.i r { s with scanInfo := { s.scanInfo with rssi := r } }

/-- static bool IsBlacklisted(uint16_t) (lines 890-898): a nonzero
    blacklistFreqsIdx enables a linear search of the 15-entry blacklistFreqs. -/
def IsBlacklisted (idx : ℕ) (s : St) : Bool :=
  s.blacklistFreqsIdx ≠ 0 ∧ ((List.range 15).any fun i => s.blacklistFreqs i = idx)

/-- static void Scan() (lines 1782-1794), with the sampled strength supplied:
    when the history at the current bin is not the sentinel and the bin is not
    blacklisted, tune (SetF, which records fMeasure), Measure, UpdateScanInfo.
    Both the guard read and the Measure write access rssiHistory at index
    scanInfo.i. -/
def Scan (cfg : Cfg) (r : ℕ) (s : St) : St :=
  if s.rssiHistory s.scanInfo.i ≠ RSSI_MAX_VALUE ∧ ¬ IsBlacklisted s.scanInfo.i s then
    UpdateScanInfo cfg (Measure r { s with fMeasure := s.scanInfo.f })
  else s

/-- static void NextScanStep() (lines 1796-1801): age the peak, advance the
    bin index and the scan frequency. -/
def NextScanStep (s : St) : St :=
  { s with peak := { s.peak with t := s.peak.t + 1 },
           scanInfo := { s.scanInfo with
             i := s.scanInfo.i + 1,
             f := s.scanInfo.f + s.scanInfo.scanStep } }

/-- bool IsPeakOverLevel() (line 339). -/
def IsPeakOverLevel (s : St) : Bool :=
  decide (s.peak.rssi ≥ s.settings.rssiTriggerLevel)

/-- static void TuneToPeak() (lines 422-428): park the scan position on the
    long-lived peak and tune there (SetF records fMeasure). -/
def TuneToPeak (s : St) : St :=
  { s with scanInfo := { s.scanInfo with
             f := s.peak.f, rssi := s.peak.rssi, i := s.peak.i },
           fMeasure := s.peak.f }

/-- The 4x4 Bayer threshold matrix gBayer4x4 (lines 1100-1105), indexed
    (row, column). -/
def gBayer4x4 (r c : ℕ) : ℕ :=
  [[0, 8, 2, 10], [12, 4, 14, 6], [3, 11, 1, 9], [15, 7, 13, 5]].getD r [] |>.getD c 0

/-- The completion-time clear in UpdateScan (lines 1813-1815):
    memset(&rssiHistory[measurementsCount], 0, sizeof - count*2) zeroes the
    slots at indices measurementsCount..127.  (Faithful for
    measurementsCount <= 128; beyond that the C size_t length underflows,
    which no theorem below relies on.) -/
def ClearStaleHistory (s : St) : St :=
  { s with rssiHistory := fun j =>
      if s.scanInfo.measurementsCount ≤ j ∧ j < 128 then 0 else s.rssiHistory j }

/-- static void Waterfall_AddLine() (lines 1108-1158): shift rows 15..1 down
    by one, advance waterfall_phase by one AND 3, bump the scan counter, and
    build the new top row from rssiHistory by ordered dithering: a non
    sentinel column x is lit when its level
    (dbm - dbmin) * 15 / (dbmax - dbmin + 1) (C int division, truncating
    toward zero, then clamped into 0..15) exceeds the Bayer threshold at
    (phase AND 3, x AND 3).  dbmax is bumped to dbmin + 1 when not above
    dbmin. -/
def Waterfall_AddLine (cfg : Cfg) (s : St) : St :=
  let phase1 := (s.waterfall.phase + 1) % 4
  let top : ℕ → Bool := fun x =>
    if x < 128 then
      let rssi := s.rssiHistory x
      if rssi = RSSI_MAX_VALUE then false
      else
        let dbm := Rssi2DBm cfg rssi
        let dbmin := s.settings.dbMin
        let dbmax := if s.settings.dbMax ≤ dbmin then dbmin + 1 else s.settings.dbMax
        let lev := Int.tdiv ((dbm - dbmin) * 15) (dbmax - dbmin + 1)
        let lev := if lev < 0 then 0 else if lev > 15 then 15 else lev
        decide (lev > (gBayer4x4 (phase1 % 4) (x % 4) : ℤ))
    else false
  { s with waterfall :=
      { rows := fun r x => if r = 0 then top x
                           else if r < 16 then s.waterfall.rows (r - 1) x
                           else s.waterfall.rows r x,
        phase := phase1,
        scanCount := s.waterfall.scanCount + 1 } }

/-- static void UpdateScan() (lines 1803-1837), with the sampled strength
    supplied: Scan at the current bin, then either advance to the next bin or
    run the pass-completion processing (clear stale history slots, flag
    redraw, re-enable keys, clear the display peak-hold, UpdatePeakInfo, and
    either enter listening on the peak or push a waterfall row and request a
    new pass). -/
def UpdateScan (cfg : Cfg) (r : ℕ) (s : St) : St :=
  let s := Scan cfg r s
  if s.scanInfo.i < s.scanInfo.measurementsCount then NextScanStep s
  else
    let s := ClearStaleHistory s
    let s := { s with redrawScreen := true, preventKeypress := false,
                      spectrumPeaks := fun _ => RSSI_MAX_VALUE,
                      spectrumPeakAge := fun _ => 0 }
    let s := UpdatePeakInfo s
    if IsPeakOverLevel s then TuneToPeak (ToggleRX true s)
    else { Waterfall_AddLine cfg s with newScanStart := true }

/-- One tick of the scan loop while in SPECTRUM mode and not listening
    (Tick, lines 1904-1979, restricted to the scan path the safety claim is
    about): a requested new pass is initialized first (newScanStart handling,
    lines 1944-1948), then UpdateScan runs with the tick's hardware sample. -/
def tickScan (cfg : Cfg) (r : ℕ) (s : St) : St :=
  if s.newScanStart then UpdateScan cfg r { InitScan cfg s with newScanStart := false }
  else UpdateScan cfg r s

/-- static void ToggleStepsCount() (lines 781-795): STEPS_128 (enum value 0)
    wraps to STEPS_16 (3), otherwise the enum value is decremented; then
    frequencyChangeStep = GetBW() >> 1, RelaunchScan, ResetBlacklist and a
    redraw. -/
def ToggleStepsCount (cfg : Cfg) (s : St) : St :=
  let s := { s with settings := { s.settings with stepsCount :=
      if s.settings.stepsCount = 0 then 3 else s.settings.stepsCount - 1 } }
  let fcs := GetBW cfg s >>> 1
  let s := { s with settings := { s.settings with frequencyChangeStep := fcs } }
  let s := RelaunchScan cfg s
  let s := ResetBlacklist s
  { s with redrawScreen := true }

/-- The KEY_MENU case of OnKeyDownFreqInput (lines 1497-1513): an entered
    frequency outside [F_MIN, F_MAX] is dropped by the early break; otherwise
    return to the previous state, commit currentFreq, and either restart the
    scan (SPECTRUM) or retune (SetF records fMeasure). -/
def FreqInputConfirmMenu (cfg : Cfg) (s : St) : St :=
  if s.tempFreq < cfg.fMin ∨ s.tempFreq > cfg.fMax then s
  else
    let s := SetState s.previousState s
    let s := { s with currentFreq := s.tempFreq }
    if s.currentState = CState.SPECTRUM then RelaunchScan cfg (ResetBlacklist s)
    else { s with fMeasure := s.currentFreq }

/-- The qualifying-neighbor window of SmoothSpectrum (lines 937-950): for
    j in -3..3 (here j runs over 0..6 with the offset written as i + j - 3,
    guarded the way the C guards 0 <= idx < bars), collect the neighbor values
    that are neither the sentinel nor zero. -/
def smoothWindow (f : ℕ → ℕ) (bars i : ℕ) : List ℕ :=
  (List.range 7).filterMap fun j =>
    if 3 ≤ i + j ∧ i + j - 3 < bars then
      let v := f (i + j - 3)
      if v ≠ RSSI_MAX_VALUE ∧ 0 < v then some v else none
    else none

/-- static void SmoothSpectrum(uint16_t bars) (lines 922-967), expressed per
    output bin: the initial copy takes rssiHistory[i >> stepsCount] when
    bars > 128 and rssiHistory[i] otherwise; each bin then becomes the
    average (integer division sum / count) of its qualifying neighbors in the
    radius-3 window, or the sentinel when no neighbor qualifies.  (The C
    writes temp back only for i < bars; the claims only read indices
    below bars.) -/
def SmoothSpectrum (hist : ℕ → ℕ) (stepsCount bars i : ℕ) : ℕ :=
  let init : ℕ → ℕ := fun k => if 128 < bars then hist (k >>> stepsCount) else hist k
  let w := smoothWindow init bars i
  if w.length = 0 then RSSI_MAX_VALUE else w.sum / w.length

/-- A concrete configuration used by concrete evaluations: constant 25 kHz
    scan step table, never-centered threshold, zero dBm correction, and the
    usual band limits in 10 Hz units. -/
def cfgB : Cfg :=
  { scanStepValues := fun _ => 2500, centerThreshold := 0, corr := 0,
    fMin := 1500000, fMax := 130000000 }

/-- A concrete module state as left by APP_RunSpectrum just before the tick
    loop (lines 2024-2047): STEPS_128, trigger level 150, clean history and
    waterfall, newScanStart requested, not listening. -/
def baseSt : St :=
  { settings :=
      { stepsCount := 0, scanStepIndex := 11, frequencyChangeStep := 80000,
        scanDelay := 3200, rssiTriggerLevel := 150, backlightState := true,
        bw := 0, listenBw := 0, modulationType := 0, dbMin := -130, dbMax := -50 },
    currentFreq := 43000000, tempFreq := 0, gScanRangeStart := 0, gScanRangeStop := 0,
    rssiHistory := fun _ => 0, blacklistFreqs := fun _ => 0, blacklistFreqsIdx := 0,
    scanInfo := { rssi := 0, rssiMin := 65535, rssiMax := 0, iPeak := 0, fPeak := 0,
                  i := 0, f := 0, scanStep := 0, measurementsCount := 0 },
    peak := { t := 0, rssi := 0, f := 0, i := 0 },
    isListening := false, currentState := CState.SPECTRUM, previousState := CState.SPECTRUM,
    newScanStart := true, preventKeypress := true, redrawScreen := false, redrawStatus := false,
    fMeasure := 0, listenT := 0,
    waterfall := { rows := fun _ _ => false, phase := 0, scanCount := 0 },
    spectrumPeaks := fun _ => 65535, spectrumPeakAge := fun _ => 0 }

/-- C5: at pass completion, UpdatePeakInfo overwrites the long-lived peak
    with the pass running maximum (rssi, f, i from scanInfo, age t reset
    to 0) exactly when the peak is unset (f = 0), its age reached 1024
    ticks, or the pass maximum exceeds its stored value; in every other case
    all four PeakInfo fields are left unchanged. -/
theorem c5_update_peak_info (s : St) :
    ((s.peak.f = 0 ∨ 1024 ≤ s.peak.t ∨ s.peak.rssi < s.scanInfo.rssiMax) →
      (UpdatePeakInfo s).peak =
        ⟨0, s.scanInfo.rssiMax, s.scanInfo.fPeak, s.scanInfo.iPeak⟩) ∧
    (¬ (s.peak.f = 0 ∨ 1024 ≤ s.peak.t ∨ s.peak.rssi < s.scanInfo.rssiMax) →
      (UpdatePeakInfo s).peak = s.peak) := by
  constructor
  · intro h
    simp only [UpdatePeakInfo, ge_iff_le, if_pos h, UpdatePeakInfoForce, AutoTriggerLevel]
    split <;> rfl
  · intro h
    simp only [UpdatePeakInfo, ge_iff_le, if_neg h]

/-- Witness for C5: on the base state the peak is unset (f = 0), so the
    refresh branch fires and copies the (zero) pass statistics. -/
theorem c5_update_peak_info_witness :
    (UpdatePeakInfo baseSt).peak = ⟨0, 0, 0, 0⟩ :=
  (c5_update_peak_info baseSt).1 (Or.inl rfl)

/-- C10: confirming (KEY_MENU) a frequency-input value strictly below F_MIN
    or strictly above F_MAX is silently rejected: the whole module state
    (mode, currentFreq, scan state, everything) is returned unchanged. -/
theorem c10_freq_input_reject (cfg : Cfg) (s : St)
    (h : s.tempFreq < cfg.fMin ∨ s.tempFreq > cfg.fMax) :
    FreqInputConfirmMenu cfg s = s := by
  simp only [FreqInputConfirmMenu, if_pos h]

/-- Witness for C10: the base state has tempFreq 0, below the band minimum,
    so the confirm is a no-op. -/
theorem c10_freq_input_reject_witness :
    FreqInputConfirmMenu cfgB baseSt = baseSt :=
  c10_freq_input_reject cfgB baseSt (Or.inl (by decide))

/-- A completion-time state refuting C4 as stated: the trigger level sits at
    the auto sentinel, but the stored peak is set (f = 1), young (t = 0) and
    not below the pass maximum (5 vs 5), so UpdatePeakInfo does not force a
    refresh and AutoTriggerLevel never runs. -/
def c4St : St :=
  { baseSt with
    settings := { baseSt.settings with rssiTriggerLevel := RSSI_MAX_VALUE },
    peak := { t := 0, rssi := 5, f := 1, i := 0 },
    scanInfo := { baseSt.scanInfo with rssiMax := 5 } }

/-- Counterexample to C4: on c4St the trigger level is at the sentinel before
    the completion processing, yet afterwards it is still the sentinel 65535,
    not clamp(passMax + 8, 0, RSSI_MAX_VALUE) = 13. -/
theorem c4_counterexample :
    c4St.settings.rssiTriggerLevel = RSSI_MAX_VALUE ∧
    (UpdatePeakInfo c4St).settings.rssiTriggerLevel = 65535 ∧
    (clamp ((c4St.scanInfo.rssiMax : ℤ) + 8) 0 (RSSI_MAX_VALUE : ℕ)).toNat = 13 ∧
    (65535 : ℕ) ≠ 13 := by
  refine ⟨rfl, ?_, by decide, by decide⟩
  decide

/-- C4 as amended: after pass completion, a sentinel trigger level becomes
    clamp(passMax + 8, 0, RSSI_MAX_VALUE) exactly when the peak force-refresh
    condition holds (peak unset, aged 1024, or below the pass maximum);
    when that condition fails the sentinel survives unchanged, and a
    non-sentinel trigger level is always left unchanged. -/
theorem c4_auto_squelch (s : St) :
    (s.settings.rssiTriggerLevel = RSSI_MAX_VALUE →
      (s.peak.f = 0 ∨ 1024 ≤ s.peak.t ∨ s.peak.rssi < s.scanInfo.rssiMax) →
      (UpdatePeakInfo s).settings.rssiTriggerLevel =
        (clamp ((s.scanInfo.rssiMax : ℤ) + 8) 0 (RSSI_MAX_VALUE : ℕ)).toNat) ∧
    (s.settings.rssiTriggerLevel = RSSI_MAX_VALUE →
      ¬ (s.peak.f = 0 ∨ 1024 ≤ s.peak.t ∨ s.peak.rssi < s.scanInfo.rssiMax) →
      (UpdatePeakInfo s).settings.rssiTriggerLevel = RSSI_MAX_VALUE) ∧
    (s.settings.rssiTriggerLevel ≠ RSSI_MAX_VALUE →
      (UpdatePeakInfo s).settings.rssiTriggerLevel = s.settings.rssiTriggerLevel) := by
  refine ⟨?_, ?_, ?_⟩
  · intro hs h
    simp [UpdatePeakInfo, ge_iff_le, if_pos h, UpdatePeakInfoForce, AutoTriggerLevel, hs]
  · intro hs h
    simp only [UpdatePeakInfo, ge_iff_le, if_neg h, hs]
  · intro hs
    rcases Classical.em (s.peak.f = 0 ∨ 1024 ≤ s.peak.t ∨ s.peak.rssi < s.scanInfo.rssiMax)
      with h | h
    · simp only [UpdatePeakInfo, ge_iff_le, if_pos h, UpdatePeakInfoForce, AutoTriggerLevel]
      simp only [if_neg hs]
    · simp only [UpdatePeakInfo, ge_iff_le, if_neg h]

/-- Witness for C4 (amended): on a sentinel-trigger state with an unset peak
    and pass maximum 5, the refresh fires and the trigger becomes 13; on the
    base state (trigger 150) the completion leaves 150 in place. -/
theorem c4_auto_squelch_witness :
    (UpdatePeakInfo { c4St with peak := { c4St.peak with f := 0 } }).settings.rssiTriggerLevel =
      (clamp (((c4St.scanInfo.rssiMax : ℕ) : ℤ) + 8) 0 (RSSI_MAX_VALUE : ℕ)).toNat ∧
    (UpdatePeakInfo baseSt).settings.rssiTriggerLevel = baseSt.settings.rssiTriggerLevel :=
  ⟨(c4_auto_squelch { c4St with peak := { c4St.peak with f := 0 } }).1 rfl (Or.inl rfl),
   (c4_auto_squelch baseSt).2.2 (by decide)⟩

/-- An extended-range state with 129 physical steps and an all-zero history,
    used against the C6 slot-mapping claim. -/
def c6St : St :=
  { baseSt with scanInfo := { baseSt.scanInfo with measurementsCount := 129 } }

/-- Counterexample to C6: with measurementsCount = 129, the claimed display
    slot for physical index 128 is floor(128 * 128 / 129) = 127, but
    SetRssiHistory(128, 100) stores the value in slot 126
    (the truncated cascade 128 * 1000 / 129 * 128 / 1000 = 126) and leaves
    slot 127 at 0. -/
theorem c6_counterexample :
    128 * 128 / 129 = 127 ∧
    (SetRssiHistory 128 100 c6St).rssiHistory 127 = 0 ∧
    (SetRssiHistory 128 100 c6St).rssiHistory 126 = 100 ∧
    (0 : ℕ) ≠ 100 := by
  refine ⟨by decide, ?_, ?_, by decide⟩ <;> decide

/-- C6 as amended: when measurementsCount > 128, SetRssiHistory(idx, v)
    targets slot i = (128 * 1000 / measurementsCount) * idx / 1000 truncated
    to uint8 (which can fall below floor(128 * idx / measurementsCount)),
    stores v there exactly when the slot holds a smaller value or the engine
    is listening, additionally zeroes slot (i + 1) mod 128, and leaves every
    other slot unchanged. -/
theorem c6_fold_write (s : St) (idx v : ℕ)
    (hm : s.scanInfo.measurementsCount > 128) :
    ((SetRssiHistory idx v s).rssiHistory
        (((128 * 1000 / s.scanInfo.measurementsCount * idx / 1000) % 256 + 1) % 128) = 0) ∧
    (((128 * 1000 / s.scanInfo.measurementsCount * idx / 1000) % 256) ≠
        (((128 * 1000 / s.scanInfo.measurementsCount * idx / 1000) % 256 + 1) % 128) →
      (SetRssiHistory idx v s).rssiHistory
          ((128 * 1000 / s.scanInfo.measurementsCount * idx / 1000) % 256) =
        if s.rssiHistory ((128 * 1000 / s.scanInfo.measurementsCount * idx / 1000) % 256) < v
            ∨ s.isListening = true then v
        else s.rssiHistory ((128 * 1000 / s.scanInfo.measurementsCount * idx / 1000) % 256)) ∧
    (∀ j, j ≠ (128 * 1000 / s.scanInfo.measurementsCount * idx / 1000) % 256 →
      j ≠ ((128 * 1000 / s.scanInfo.measurementsCount * idx / 1000) % 256 + 1) % 128 →
      (SetRssiHistory idx v s).rssiHistory j = s.rssiHistory j) := by
  simp only [SetRssiHistory, if_pos hm]
  refine ⟨by simp, ?_, ?_⟩
  · intro hne
    simp only [if_neg hne]
    split
    · simp
    · rfl
  · intro j hj1 hj2
    simp only [if_neg hj2]
    split
    · simp [hj1]
    · rfl

/-- Witness for C6 (amended): on the 129-step state, the write of 100 at
    physical index 128 really lands in slot 126, zeroes slot 127, and leaves
    slot 0 alone. -/
theorem c6_fold_write_witness :
    (SetRssiHistory 128 100 c6St).rssiHistory ((128 * 1000 / 129 * 128 / 1000) % 256) =
      (if c6St.rssiHistory ((128 * 1000 / 129 * 128 / 1000) % 256) < 100
          ∨ c6St.isListening = true then 100
       else c6St.rssiHistory ((128 * 1000 / 129 * 128 / 1000) % 256)) ∧
    (SetRssiHistory 128 100 c6St).rssiHistory 0 = c6St.rssiHistory 0 :=
  ⟨(c6_fold_write c6St 128 100 (by decide)).2.1 (by decide),
   (c6_fold_write c6St 128 100 (by decide)).2.2 0 (by decide) (by decide)⟩

/-- A folded-mode state whose slots all hold 200 while not listening, used
    against the C8 round-trip claim. -/
def c8St : St :=
  { baseSt with
    rssiHistory := fun _ => 200,
    scanInfo := { baseSt.scanInfo with measurementsCount := 129 } }

/-- Counterexample to C8: with measurementsCount = 129 (so index 5 is within
    the active bin count) and slot values 200, writing the non-sentinel value
    100 at index 5 and reading back the slot for 5 (slot 4, and
    floor(128 * 5 / 129) = 4 as well) yields the old 200, not 100. -/
theorem c8_counterexample :
    5 < c8St.scanInfo.measurementsCount ∧
    (100 : ℕ) ≠ RSSI_MAX_VALUE ∧
    128 * 5 / 129 = 4 ∧ 128 * 1000 / 129 * 5 / 1000 = 4 ∧
    (SetRssiHistory 5 100 c8St).rssiHistory 4 = 200 ∧
    (200 : ℕ) ≠ 100 := by
  refine ⟨by decide, by decide, by decide, by decide, ?_, by decide⟩
  decide

/-- C8 as amended, restricted to measurementsCount <= 128 (the
    counterexample shows the folded mode breaks the round-trip): set(i, v)
    then get(i) yields v with every other slot untouched, and the
    pass-completion clear zeroes exactly the slots at indices from
    measurementsCount up to 127 while leaving indices below
    measurementsCount unchanged. -/
theorem c8_history_ops (s : St) (idx v j : ℕ)
    (hm : s.scanInfo.measurementsCount ≤ 128) :
    ((SetRssiHistory idx v s).rssiHistory idx = v) ∧
    (j ≠ idx → (SetRssiHistory idx v s).rssiHistory j = s.rssiHistory j) ∧
    (j < s.scanInfo.measurementsCount →
      (ClearStaleHistory s).rssiHistory j = s.rssiHistory j) ∧
    (s.scanInfo.measurementsCount ≤ j → j < 128 →
      (ClearStaleHistory s).rssiHistory j = 0) := by
  have hnm : ¬ s.scanInfo.measurementsCount > 128 := by omega
  simp only [SetRssiHistory, if_neg hnm, ClearStaleHistory]
  refine ⟨by simp, ?_, ?_, ?_⟩
  · intro hj
    simp [hj]
  · intro hj
    have : ¬ (s.scanInfo.measurementsCount ≤ j ∧ j < 128) := by omega
    simp [this]
  · intro h1 h2
    simp [h1, h2]

/-- Witness for C8 (amended): on the base state (measurementsCount 0 after
    reset, history all zero) a write at index 3 round-trips, index 7 is
    untouched by it, and the completion clear zeroes index 7. -/
theorem c8_history_ops_witness :
    (SetRssiHistory 3 42 baseSt).rssiHistory 3 = 42 ∧
    (SetRssiHistory 3 42 baseSt).rssiHistory 7 = baseSt.rssiHistory 7 ∧
    (ClearStaleHistory baseSt).rssiHistory 7 = 0 :=
  ⟨(c8_history_ops baseSt 3 42 7 (by decide)).1,
   (c8_history_ops baseSt 3 42 7 (by decide)).2.1 (by decide),
   (c8_history_ops baseSt 3 42 7 (by decide)).2.2.2 (by decide) (by decide)⟩

/-- On a flat valid input, every slot of the radius-3 window qualifies, so
    the window collected by SmoothSpectrum is seven copies of the value. -/
theorem smoothWindow_flat (f : ℕ → ℕ) (bars i v : ℕ)
    (hv0 : 0 < v) (hv : v ≠ RSSI_MAX_VALUE)
    (hf : ∀ k, k < bars → f k = v) (h3 : 3 ≤ i) (hib : i + 3 < bars) :
    smoothWindow f bars i = List.replicate 7 v := by
  have e : ∀ j, j ≤ 6 →
      (if 3 ≤ i + j ∧ i + j - 3 < bars then
        (if f (i + j - 3) ≠ RSSI_MAX_VALUE ∧ 0 < f (i + j - 3) then some (f (i + j - 3))
         else none)
       else none) = some v := by
    intro j hj
    have hc : 3 ≤ i + j ∧ i + j - 3 < bars := by omega
    rw [if_pos hc, hf _ (by omega), if_pos ⟨hv, hv0⟩]
  have e0 := e 0 (by omega)
  have e1 := e 1 (by omega)
  have e2 := e 2 (by omega)
  have e3 := e 3 (by omega)
  have e4 := e 4 (by omega)
  have e5 := e 5 (by omega)
  have e6 := e 6 (by omega)
  simp only [smoothWindow, show List.range 7 = [0, 1, 2, 3, 4, 5, 6] from rfl,
    List.filterMap_cons, List.filterMap_nil, e0, e1, e2, e3, e4, e5, e6]
  rfl

/-- C9: for bars <= 128 and a valid value v (positive, not the sentinel), if
    every input bin below bars holds v then SmoothSpectrum leaves every
    interior bin (three neighbors in range on each side) at exactly v. -/
theorem c9_smooth_flat (hist : ℕ → ℕ) (sc bars v i : ℕ)
    (hbars : bars ≤ 128) (hv0 : 0 < v) (hv : v ≠ RSSI_MAX_VALUE)
    (hh : ∀ k, k < bars → hist k = v) (h3 : 3 ≤ i) (hib : i + 3 < bars) :
    SmoothSpectrum hist sc bars i = v := by
  have hnb : ¬ 128 < bars := by omega
  have hinit : (fun k => if 128 < bars then hist (k >>> sc) else hist k) = fun k => hist k := by
    funext k
    rw [if_neg hnb]
  have hw : smoothWindow (fun k => if 128 < bars then hist (k >>> sc) else hist k) bars i =
      List.replicate 7 v := by
    rw [hinit]
    exact smoothWindow_flat hist bars i v hv0 hv hh h3 hib
  simp only [SmoothSpectrum, hw, List.length_replicate, List.sum_replicate, smul_eq_mul]
  norm_num

/-- Witness for C9: a constant history of 5 over 7 bars smooths to exactly 5
    at the interior bin 3. -/
theorem c9_smooth_flat_witness : SmoothSpectrum (fun _ => 5) 0 7 3 = 5 :=
  c9_smooth_flat (fun _ => 5) 0 7 5 3 (by decide) (by decide) (by decide)
    (fun _ _ => rfl) (by decide) (by decide)

/-- The rssiHistory index that the next UpdateScan tick makes Scan access:
    the guard read rssiHistory[scanInfo.i] (line 1784) and, when the guard
    passes, the Measure write SetRssiHistory(scanInfo.i, rssi) (line 621)
    both use scanInfo.i. -/
def ScanAccessIndex (s : St) : ℕ := s.scanInfo.i

set_option maxRecDepth 100000

/-- C1 (failing input): with measurementsCount = 128 (STEPS_128), after the
    first 128 ticks of a fresh scan the state has scanInfo.i = 128, so the
    next (pass-completing) tick makes Scan access rssiHistory at index 128 =
    measurementsCount -- one past the end of the 128-entry array; the tick
    indeed writes the measured value 50 there (rssiHistory 128 changes from
    0 to 50), so both the claimed index bound (< 128) and the claimed
    no-access-at-measurementsCount property fail. -/
theorem c1_completion_tick_overrun :
    baseSt.rssiHistory 128 = 0 ∧
    ((tickScan cfgB 50)^[128] baseSt).scanInfo.measurementsCount = 128 ∧
    ScanAccessIndex ((tickScan cfgB 50)^[128] baseSt) = 128 ∧
    ¬ (ScanAccessIndex ((tickScan cfgB 50)^[128] baseSt) < 128) ∧
    ((tickScan cfgB 50)^[129] baseSt).rssiHistory 128 = 50 := by
  refine ⟨rfl, ?_, ?_, ?_, ?_⟩ <;> decide

/-- The base state with STEPS_16, so a pass takes 16 bins: the first pass
    completes on tick 17 and the second on tick 34 of the scan loop. -/
def st16 : St :=
  { baseSt with settings := { baseSt.settings with stepsCount := 3 } }

/-- Counterexample to C2: running the scan loop on st16, the first pass
    completes on tick 17 with waterfall phase 1, and the second pass
    completes on tick 34 also with phase 1 (ResetScanStats reset it to 0 when
    the new pass was initialized, and it also zeroed all retained rows:
    rows 1..15 are blank after the second completion).  The phase therefore
    does not advance by one per completed pass (it would have to be 2) and
    never cycles through 0, 1, 2, 3. -/
theorem c2_counterexample :
    ((tickScan cfgB 50)^[17] st16).waterfall.phase = 1 ∧
    ((tickScan cfgB 50)^[34] st16).waterfall.phase = 1 ∧
    ((tickScan cfgB 50)^[34] st16).waterfall.phase ≠
      (((tickScan cfgB 50)^[17] st16).waterfall.phase + 1) % 4 ∧
    (∀ r, r < 16 → 1 ≤ r → ∀ x, x < 128 →
      ((tickScan cfgB 50)^[34] st16).waterfall.rows r x = false) := by
  refine ⟨?_, ?_, ?_, ?_⟩ <;> decide

/-- C2 as amended: Waterfall_AddLine itself does shift rows 1..15 down by one
    and advance the 2-bit phase by exactly one modulo 4; but every new pass
    start runs ResetScanStats (through InitScan), which zeroes all 16 rows
    and resets the phase to 0, so across consecutive completed passes no row
    from an earlier pass is retained and the phase observed after each
    completion is always 1 (never cycling through all four values). -/
theorem c2_waterfall_behavior (cfg : Cfg) (s : St) :
    ((Waterfall_AddLine cfg s).waterfall.phase = (s.waterfall.phase + 1) % 4) ∧
    (∀ r x, 1 ≤ r → r < 16 →
      (Waterfall_AddLine cfg s).waterfall.rows r x = s.waterfall.rows (r - 1) x) ∧
    ((Waterfall_AddLine cfg (ResetScanStats s)).waterfall.phase = 1) ∧
    (∀ r x, 1 ≤ r → r < 16 →
      (Waterfall_AddLine cfg (ResetScanStats s)).waterfall.rows r x = false) := by
  refine ⟨rfl, ?_, rfl, ?_⟩
  · intro r x h1 h16
    have hr0 : r ≠ 0 := by omega
    simp only [Waterfall_AddLine, if_neg hr0, if_pos h16]
  · intro r x h1 h16
    have hr0 : r ≠ 0 := by omega
    simp only [Waterfall_AddLine, ResetScanStats, if_neg hr0, if_pos h16]

/-- Witness for C2 (amended): on the base state, the shifted row 1 equals the
    previous row 0 and a post-reset AddLine leaves row 1 blank. -/
theorem c2_waterfall_behavior_witness :
    (Waterfall_AddLine cfgB baseSt).waterfall.rows 1 0 = baseSt.waterfall.rows 0 0 ∧
    (Waterfall_AddLine cfgB (ResetScanStats baseSt)).waterfall.rows 1 0 = false :=
  ⟨(c2_waterfall_behavior cfgB baseSt).2.1 1 0 (by decide) (by decide),
   (c2_waterfall_behavior cfgB baseSt).2.2.2 1 0 (by decide) (by decide)⟩

/-- A centered-mode configuration: 1 kHz scan step (below the 2.5 kHz
    centering threshold at enum index 12). -/
def cfgC : Cfg :=
  { scanStepValues := fun _ => 100, centerThreshold := 12, corr := 0,
    fMin := 1500000, fMax := 130000000 }

/-- The base state with scanStepIndex 0, which is centered under cfgC. -/
def stC : St :=
  { baseSt with settings := { baseSt.settings with scanStepIndex := 0 } }

/-- Counterexample to C3: in centered mode with N = 128 bins of step 100,
    GetFEnd() exceeds GetFStart() + N * GetScanStep() by 6400 (half the
    bandwidth), which is far more than one scan step. -/
theorem c3_counterexample :
    IsCenterMode cfgC stC = true ∧
    GetStepsCount cfgC stC = 128 ∧
    GetScanStep cfgC stC = 100 ∧
    GetFEnd cfgC stC =
      GetFStart cfgC stC + GetStepsCount cfgC stC * GetScanStep cfgC stC + 6400 ∧
    GetFStart cfgC stC + GetStepsCount cfgC stC * GetScanStep cfgC stC +
      GetScanStep cfgC stC < GetFEnd cfgC stC := by
  refine ⟨rfl, rfl, rfl, ?_, ?_⟩ <;> decide

/-- C3 as amended: in non-centered normal mode GetFStart() + N * GetScanStep()
    equals GetFEnd() exactly; in non-centered extended-range mode it lies in
    the interval (gScanRangeStop, gScanRangeStop + step]; but in centered
    mode GetFEnd() exceeds it by half the bandwidth GetBW() >> 1. -/
theorem c3_sweep_end (cfg : Cfg) (s : St) (hstep : 1 ≤ GetScanStep cfg s) :
    (IsCenterMode cfg s = false → s.gScanRangeStart = 0 →
      GetFStart cfg s + GetStepsCount cfg s * GetScanStep cfg s = GetFEnd cfg s) ∧
    (IsCenterMode cfg s = false → s.gScanRangeStart ≠ 0 →
      s.currentFreq = s.gScanRangeStart → s.gScanRangeStart ≤ s.gScanRangeStop →
      GetFEnd cfg s < GetFStart cfg s + GetStepsCount cfg s * GetScanStep cfg s ∧
      GetFStart cfg s + GetStepsCount cfg s * GetScanStep cfg s ≤
        GetFEnd cfg s + GetScanStep cfg s) ∧
    (IsCenterMode cfg s = true → s.gScanRangeStart = 0 →
      GetBW cfg s >>> 1 ≤ s.currentFreq →
      GetFEnd cfg s =
        GetFStart cfg s + GetStepsCount cfg s * GetScanStep cfg s + GetBW cfg s >>> 1) := by
  refine ⟨?_, ?_, ?_⟩
  · intro hc hr
    simp [GetFStart, GetFEnd, GetBW, hc, hr]
  · intro hc hr hcf hle
    have hd := Nat.div_add_mod (s.gScanRangeStop - s.gScanRangeStart) (GetScanStep cfg s)
    have hm : (s.gScanRangeStop - s.gScanRangeStart) % GetScanStep cfg s <
        GetScanStep cfg s := Nat.mod_lt _ (by omega)
    have hmul : ((s.gScanRangeStop - s.gScanRangeStart) / GetScanStep cfg s + 1) *
        GetScanStep cfg s =
        GetScanStep cfg s * ((s.gScanRangeStop - s.gScanRangeStart) / GetScanStep cfg s) +
          GetScanStep cfg s := by ring
    simp only [GetFStart, GetFEnd, GetStepsCount, hc, Bool.false_eq_true, if_false,
      if_pos hr, hcf]
    constructor <;> omega
  · intro hc hr hbw
    have hsh : GetBW cfg s >>> 1 = GetBW cfg s / 2 := Nat.shiftRight_eq_div_pow _ 1
    have hbwe : GetBW cfg s = GetStepsCount cfg s * GetScanStep cfg s := rfl
    simp only [GetFStart, GetFEnd, hc, if_true, if_pos rfl, hr]
    simp only [if_neg (by omega : ¬ (0 : ℕ) ≠ 0)]
    omega

/-- Witness for C3 (amended): the exact-equality branch at the non-centered
    base state, and the centered half-bandwidth formula at the centered
    state used by the counterexample. -/
theorem c3_sweep_end_witness :
    (GetFStart cfgB baseSt + GetStepsCount cfgB baseSt * GetScanStep cfgB baseSt =
      GetFEnd cfgB baseSt) ∧
    (GetFEnd cfgC stC =
      GetFStart cfgC stC + GetStepsCount cfgC stC * GetScanStep cfgC stC +
        GetBW cfgC stC >>> 1) :=
  ⟨(c3_sweep_end cfgB baseSt (by decide)).1 rfl rfl,
   (c3_sweep_end cfgC stC (by decide)).2.2 rfl rfl (by decide)⟩

/-- A closed form for RelaunchScan: with SPECTRUM_AUTOMATIC_SQUELCH disabled
    it re-initializes the pass state (InitScan), clears the peak age and
    strength, forces the listening flag off, blocks keys, and arms
    rssiMin = RSSI_MAX_VALUE; listenT, trigger level and (in particular) the
    history are untouched. -/
theorem RelaunchScan_eq (cfg : Cfg) (s : St) :
    RelaunchScan cfg s =
      { s with
        scanInfo := { rssi := 0, rssiMin := RSSI_MAX_VALUE, rssiMax := 0, iPeak := 0,
                      fPeak := 0, i := 0, f := GetFStart cfg s,
                      scanStep := GetScanStep cfg s,
                      measurementsCount := GetStepsCount cfg s },
        peak := { s.peak with t := 0, rssi := 0 },
        isListening := false,
        preventKeypress := true,
        spectrumPeaks := fun _ => RSSI_MAX_VALUE,
        spectrumPeakAge := fun _ => 0,
        waterfall := { rows := fun _ _ => false, phase := 0, scanCount := 0 } } := by
  cases hb : s.isListening with
  | false =>
    simp only [RelaunchScan, ToggleRX, ResetPeak, InitScan, ResetScanStats, hb]
    rfl
  | true =>
    simp only [RelaunchScan, ToggleRX, ResetPeak, InitScan, ResetScanStats, hb]
    rfl

/-- The base state with STEPS_64 (enum value 1, bin count 64), the starting
    point of the C7 cycle. -/
def st64 : St :=
  { baseSt with settings := { baseSt.settings with stepsCount := 1 } }

/-- Counterexample to C7: starting from bin count 64, the first invocation of
    ToggleStepsCount yields bin count 128, not the claimed 32 (the enum value
    is decremented, so the cycle runs 64, 128, 16, 32, not 64, 32, 16, 128). -/
theorem c7_counterexample :
    GetStepsCount cfgB st64 = 64 ∧
    GetStepsCount cfgB (ToggleStepsCount cfgB st64) = 128 ∧
    (128 : ℕ) ≠ 32 := by
  refine ⟨rfl, ?_, by decide⟩
  decide

set_option maxHeartbeats 1000000 in
/-- C7 as amended: starting from bin count 64 (STEPS_64) in normal mode,
    four successive ToggleStepsCount invocations yield bin counts 128, 16,
    32, 64 in that order (the reverse rotation of the claimed one); and
    every invocation of ToggleStepsCount -- on any state whatsoever, so in
    particular each of the four in the cycle -- clears the blacklist (the
    frequency blacklist index and every sentinel history slot) and forces a
    new pass with bin index 0 and recomputed start frequency, step and
    measurement count. -/
theorem c7_toggle_cycle (cfg : Cfg) (s : St)
    (hr : s.gScanRangeStart = 0) (h64 : s.settings.stepsCount = 1) :
    (GetStepsCount cfg (ToggleStepsCount cfg s) = 128 ∧
     GetStepsCount cfg (ToggleStepsCount cfg (ToggleStepsCount cfg s)) = 16 ∧
     GetStepsCount cfg
       (ToggleStepsCount cfg (ToggleStepsCount cfg (ToggleStepsCount cfg s))) = 32 ∧
     GetStepsCount cfg (ToggleStepsCount cfg (ToggleStepsCount cfg
       (ToggleStepsCount cfg (ToggleStepsCount cfg s)))) = 64) ∧
    (∀ u : St,
     (ToggleStepsCount cfg u).blacklistFreqsIdx = 0 ∧
     (∀ j, j < 128 → (ToggleStepsCount cfg u).rssiHistory j ≠ RSSI_MAX_VALUE) ∧
     (ToggleStepsCount cfg u).scanInfo.i = 0 ∧
     (ToggleStepsCount cfg u).scanInfo.f = GetFStart cfg (ToggleStepsCount cfg u) ∧
     (ToggleStepsCount cfg u).scanInfo.scanStep = GetScanStep cfg (ToggleStepsCount cfg u) ∧
     (ToggleStepsCount cfg u).scanInfo.measurementsCount =
       GetStepsCount cfg (ToggleStepsCount cfg u)) := by
  have hstep1 : ∀ u : St, (ToggleStepsCount cfg u).settings.stepsCount =
      (if u.settings.stepsCount = 0 then 3 else u.settings.stepsCount - 1) := by
    intro u
    simp only [ToggleStepsCount, RelaunchScan_eq, ResetBlacklist]
  have hrg : ∀ u : St, (ToggleStepsCount cfg u).gScanRangeStart = u.gScanRangeStart := by
    intro u
    simp only [ToggleStepsCount, RelaunchScan_eq, ResetBlacklist]
  have hN : ∀ u : St, u.gScanRangeStart = 0 →
      GetStepsCount cfg u = 128 >>> u.settings.stepsCount := by
    intro u h
    simp [GetStepsCount, h]
  refine ⟨⟨?_, ?_, ?_, ?_⟩, ?_⟩
  · rw [hN _ (by rw [hrg]; exact hr), hstep1, h64]
    decide
  · rw [hN _ (by rw [hrg, hrg]; exact hr), hstep1, hstep1, h64]
    decide
  · rw [hN _ (by rw [hrg, hrg, hrg]; exact hr), hstep1, hstep1, hstep1, h64]
    decide
  · rw [hN _ (by rw [hrg, hrg, hrg, hrg]; exact hr), hstep1, hstep1, hstep1, hstep1, h64]
    decide
  intro u
  refine ⟨?_, ?_, ?_, ?_, ?_, ?_⟩
  · simp only [ToggleStepsCount, RelaunchScan_eq, ResetBlacklist]
  · intro j hj
    simp only [ToggleStepsCount, RelaunchScan_eq, ResetBlacklist]
    simp only [RSSI_MAX_VALUE]
    split_ifs with h
    · decide
    · exact fun hx => h ⟨hj, hx⟩
  · simp only [ToggleStepsCount, RelaunchScan_eq, ResetBlacklist]
  · simp only [ToggleStepsCount, RelaunchScan_eq, ResetBlacklist]
    simp [GetFStart, IsCenterMode, GetBW, GetStepsCount, GetScanStep]
  · simp only [ToggleStepsCount, RelaunchScan_eq, ResetBlacklist]
    simp [GetScanStep]
  · simp only [ToggleStepsCount, RelaunchScan_eq, ResetBlacklist]
    simp [GetStepsCount, GetScanStep]

/-- Witness for C7 (amended): the full cycle evaluated on the concrete
    STEPS_64 base state, and the clear/new-pass side effects instantiated on
    both the first and the second invocation of the cycle. -/
theorem c7_toggle_cycle_witness :
    GetStepsCount cfgB (ToggleStepsCount cfgB st64) = 128 ∧
    GetStepsCount cfgB (ToggleStepsCount cfgB (ToggleStepsCount cfgB
      (ToggleStepsCount cfgB (ToggleStepsCount cfgB st64)))) = 64 ∧
    (ToggleStepsCount cfgB st64).scanInfo.i = 0 ∧
    (ToggleStepsCount cfgB (ToggleStepsCount cfgB st64)).blacklistFreqsIdx = 0 ∧
    (ToggleStepsCount cfgB (ToggleStepsCount cfgB st64)).scanInfo.i = 0 :=
  ⟨(c7_toggle_cycle cfgB st64 rfl rfl).1.1,
   (c7_toggle_cycle cfgB st64 rfl rfl).1.2.2.2,
   ((c7_toggle_cycle cfgB st64 rfl rfl).2 st64).2.2.1,
   ((c7_toggle_cycle cfgB st64 rfl rfl).2 (ToggleStepsCount cfgB st64)).1,
   ((c7_toggle_cycle cfgB st64 rfl rfl).2 (ToggleStepsCount cfgB st64)).2.2.1⟩

end Spectrum
